import Mathlib

/-!
Verification of the trial-sequencing / intensity-ramp core of the
ZPOC_Ishihara color-perception test application (src/main.py).

The application is a single-threaded Qt program; all core behavior is
driven by discrete events (timer timeouts, Enter in the answer field,
a key press, button clicks).  We embed the mutable session state of the
`ColorPerceptionTest` object as an explicit record `TestState`, each
event handler of src/main.py as a pure state-transition function, and
the Qt event loop as a `step` function over an `Event` type.  Widget
enabled/disabled flags are part of the state because Qt delivers click
and returnPressed signals only for enabled widgets, and the code relies
on that for reachability (e.g. the resume path is only reachable while
the stop button is enabled).

Amounts of time are modelled as exact rationals (Python floats from
`time.time()` subtractions); pixel values are naturals in [0,255]
(numpy uint8).
-/

namespace Ishihara

/-- Constant `ColorPerceptionTest.MAX_TEST_TIME = 15` (src/main.py line 36), in seconds. -/
def MAX_TEST_TIME : ℚ := 15

/-- Constant `ColorPerceptionTest.COLOR_COMPONENTS = ['R', 'G', 'B']` (src/main.py line 37). -/
def COLOR_COMPONENTS : List String := ["R", "G", "B"]

/-- Constant `ColorPerceptionTest.INTENSITY_STEP = 3` (src/main.py line 35), the default
intensity step. -/
def DEFAULT_INTENSITY_STEP : ℚ := 3

/-- Constant `Qt.Key_Space` (0x20), the reaction key checked in `keyPressEvent`. -/
def Key_Space : Nat := 32

/-- Python `str.strip()` with no argument: remove leading and trailing
whitespace.  (Defined structurally on the character list so that it is
kernel-evaluable.) -/
def pyStrip (s : String) : String :=
  String.mk (((s.data.dropWhile Char.isWhitespace).reverse.dropWhile
    Char.isWhitespace).reverse)

/-- The per-trial result dictionary appended to `self.results`
(src/main.py lines 581-588, 599-606, 735-742). -/
structure TrialRecord where
  test_number : ℕ
  reaction_time : ℚ
  intensity : ℚ
  color_component : String
  user_input : String
  correct : Bool
deriving DecidableEq, Repr

/-- The mutable state of the `ColorPerceptionTest` object that the core event
handlers read and write: session fields set in `__init__` (src/main.py
lines 110-118) plus the widget enabled flags and the start-button handler
binding that gate which events can fire.  `start_button_restart` records
whether the start button is currently connected to `restart_test` (it is
re-bound in `finish_test` and `restart_test`, src/main.py lines 437-438,
458-459).  `finished` marks that `finish_test` has run and its session has
not been reset since, i.e. the spec state `SessionFinished`. -/
structure TestState where
  current_test : ℕ
  max_tests : ℕ
  start_time : ℚ
  results : List TrialRecord
  current_intensity : ℚ
  color_component : String
  test_running : Bool
  timer_on : Bool
  intensity_step : ℚ
  number_mode : Bool
  mode_enabled : Bool
  start_button_enabled : Bool
  stop_button_enabled : Bool
  number_input_enabled : Bool
  start_button_restart : Bool
  finished : Bool
deriving DecidableEq, Repr

/-- The key used to look up the ground truth of the current test:
`f'it-{self.current_test + 1}.png'` (src/main.py line 578). -/
def imageName (current_test : ℕ) : String :=
  "it-" ++ toString (current_test + 1) ++ ".png"

/-- Translation of `finish_test` (src/main.py lines 428-447): stop the session, stop the
timer, re-enable the start button and mode radios, disable the stop button
and the answer field, and re-bind the start button to `restart_test`.
Saving/showing results is I/O and does not touch the modelled state. -/
def finish_test (st : TestState) : TestState :=
  { st with
    test_running := false
    timer_on := false
    start_button_enabled := true
    stop_button_enabled := false
    number_input_enabled := false
    mode_enabled := true
    start_button_restart := true
    finished := true }

/-- Translation of `load_next_test` (src/main.py lines 609-623): finish when all tests are
done, otherwise reset the ramp for the next trial (intensity 0, fresh
`start_time`, timer started, channel cycled through `COLOR_COMPONENTS`). -/
def load_next_test (st : TestState) (now : ℚ) : TestState :=
  if st.max_tests ≤ st.current_test then finish_test st
  else
    { st with
      current_intensity := 0
      start_time := now
      timer_on := true
      color_component := COLOR_COMPONENTS.getD (st.current_test % 3) "R" }

/-- Translation of `next_test` (src/main.py lines 625-628): advance the trial index and load
the next test (the progress bar update is pure presentation). -/
def next_test (st : TestState) (now : ℚ) : TestState :=
  load_next_test { st with current_test := st.current_test + 1 } now

/-- The intensity-ramp assignment at the head of `update_color_intensity`
(src/main.py line 594):
`self.current_intensity = min(255, self.current_intensity + self.INTENSITY_STEP)`. -/
def tick_intensity (st : TestState) : TestState :=
  { st with current_intensity := min 255 (st.current_intensity + st.intensity_step) }

/-- Translation of `update_color_intensity` (src/main.py lines 593-607), the timer-timeout
handler: ramp the intensity, then if the elapsed time since trial start
exceeds `MAX_TEST_TIME`, stop the timer, append a timeout record
(reaction_time = MAX_TEST_TIME, empty input, incorrect) and advance. -/
def update_color_intensity (st : TestState) (now : ℚ) : TestState :=
  if MAX_TEST_TIME < now - (tick_intensity st).start_time then
    next_test
      { tick_intensity st with
        timer_on := false
        results := (tick_intensity st).results ++
          [{ test_number := (tick_intensity st).current_test + 1
             reaction_time := MAX_TEST_TIME
             intensity := (tick_intensity st).current_intensity
             color_component := (tick_intensity st).color_component
             user_input := ""
             correct := false }] } now
  else tick_intensity st

/-- Translation of `handle_number_input` (src/main.py lines 567-591), the returnPressed
handler of the answer field: ignore when no test is running or the stripped
text is empty; otherwise stop the timer, score the stripped answer against
`IMAGE_NUMBERS.get(f'it-{current_test+1}.png', '')`, append the record and
advance.  `imageNumbers` is the `IMAGE_NUMBERS` mapping of image_numbers.py. -/
def handle_number_input (imageNumbers : List (String × String)) (st : TestState)
    (text : String) (now : ℚ) : TestState :=
  if st.test_running = false then st
  else if pyStrip text = "" then st
  else
    next_test
      { st with
        timer_on := false
        results := st.results ++
          [{ test_number := st.current_test + 1
             reaction_time := now - st.start_time
             intensity := st.current_intensity
             color_component := st.color_component
             user_input := pyStrip text
             correct := pyStrip text ==
               (imageNumbers.lookup (imageName st.current_test)).getD "" }] } now

/-- Translation of `keyPressEvent` (src/main.py lines 727-743): in reaction (non-number)
mode, Space during a running test stops the timer, appends a record with the
sentinel input `"SPACE"` and `correct := true`, and advances. -/
def keyPressEvent (st : TestState) (key : Nat) (now : ℚ) : TestState :=
  if st.test_running = false then st
  else if st.number_mode = false ∧ key = Key_Space then
    next_test
      { st with
        timer_on := false
        results := st.results ++
          [{ test_number := st.current_test + 1
             reaction_time := now - st.start_time
             intensity := st.current_intensity
             color_component := st.color_component
             user_input := "SPACE"
             correct := true }] } now
  else st

/-- Translation of `stop_test` (src/main.py lines 416-426): pause the session — clear
`test_running`, stop the timer, re-enable the start button, keep the stop
button enabled (it becomes the resume button), disable the answer field.
All ramp/result state is left untouched. -/
def stop_test (st : TestState) : TestState :=
  { st with
    test_running := false
    timer_on := false
    start_button_enabled := true
    stop_button_enabled := true
    number_input_enabled := false }

/-- Translation of `handle_stop_resume` (src/main.py lines 745-755): the stop button's
handler — pause when running, otherwise resume: set `test_running`,
re-enable the answer field in number mode, and restart the timer.
Note that `start_time` is NOT modified on resume. -/
def handle_stop_resume (st : TestState) : TestState :=
  if st.test_running = true then stop_test st
  else
    { st with
      test_running := true
      timer_on := true
      number_input_enabled :=
        if st.number_mode = true then true else st.number_input_enabled }

/-- The intensity-step validation at the head of `start_test`
(src/main.py lines 369-390).  `stripped` is
`self.intensity_input.text().strip()` and `parsed` abstracts Python
`float(stripped)` (`none` stands for a `ValueError`).  Returns the step used
and whether a warning dialog was shown. -/
def chooseStep (stripped : String) (parsed : Option ℚ) : ℚ × Bool :=
  if stripped ≠ "" then
    match parsed with
    | some stp =>
        if 0 < stp ∧ stp ≤ 10 then (stp, false) else (DEFAULT_INTENSITY_STEP, true)
    | none => (DEFAULT_INTENSITY_STEP, true)
  else (DEFAULT_INTENSITY_STEP, false)

/-- Translation of `start_test` (src/main.py lines 360-414): refuse when there are no test
images; otherwise pick the intensity step, reset the session (trial 0,
empty results), flip the buttons, lock the mode radios, enable the answer
field exactly in number mode, and load the first test. -/
def start_test (st : TestState) (stripped : String) (parsed : Option ℚ)
    (now : ℚ) : TestState :=
  if st.max_tests = 0 then st
  else
    load_next_test
      { st with
        intensity_step := (chooseStep stripped parsed).1
        test_running := true
        current_test := 0
        results := []
        start_button_enabled := false
        stop_button_enabled := true
        number_input_enabled := st.number_mode
        mode_enabled := false
        finished := false } now

/-- Translation of `restart_test` (src/main.py lines 449-464): reset the session data to the
initial state without starting it, and re-bind the start button to
`start_test`. -/
def restart_test (st : TestState) : TestState :=
  { st with
    current_test := 0
    results := []
    current_intensity := 0
    start_button_restart := false
    finished := false }

/-- The discrete events delivered by the Qt event loop to the core handlers.
Each carries the `time.time()` value `now` observed while it is handled
(where the handler reads the clock). -/
inductive Event where
  | timerFire (now : ℚ)
  | pressEnter (text : String) (now : ℚ)
  | pressKey (key : Nat) (now : ℚ)
  | clickStart (stripped : String) (parsed : Option ℚ) (now : ℚ)
  | clickStop
  | setMode (numberMode : Bool)
deriving DecidableEq, Repr

/-- One iteration of the Qt event loop: dispatch an event to its handler.
Qt only delivers timer timeouts while the timer is started, returnPressed
while the answer field is enabled, clicks while the button is enabled, and
radio toggles while the radios are enabled; `clickStart` dispatches to
`restart_test` or `start_test` according to the current handler binding
(src/main.py lines 437-438, 458-459). -/
def step (imageNumbers : List (String × String)) (st : TestState) :
    Event → TestState
  | .timerFire now =>
      if st.timer_on = true then update_color_intensity st now else st
  | .pressEnter text now =>
      if st.number_input_enabled = true then
        handle_number_input imageNumbers st text now
      else st
  | .pressKey key now => keyPressEvent st key now
  | .clickStart stripped parsed now =>
      if st.start_button_enabled = true then
        if st.start_button_restart = true then restart_test st
        else start_test st stripped parsed now
      else st
  | .clickStop =>
      if st.stop_button_enabled = true then handle_stop_resume st else st
  | .setMode b =>
      if st.mode_enabled = true then { st with number_mode := b } else st

/-- The state after `__init__` and `load_test_images` (src/main.py
lines 104-121): `numImages` images were successfully loaded, so
`max_tests = numImages` (line 311); number mode is the default. -/
def initState (numImages : ℕ) : TestState :=
  { current_test := 0
    max_tests := numImages
    start_time := 0
    results := []
    current_intensity := 0
    color_component := "R"
    test_running := false
    timer_on := false
    intensity_step := DEFAULT_INTENSITY_STEP
    number_mode := true
    mode_enabled := true
    start_button_enabled := true
    stop_button_enabled := false
    number_input_enabled := false
    start_button_restart := false
    finished := false }

/-- The states the application can be in: the initial state and everything
the event loop can produce from it. -/
inductive Reachable (imageNumbers : List (String × String)) (numImages : ℕ) :
    TestState → Prop
  | init : Reachable imageNumbers numImages (initState numImages)
  | next (st : TestState) (e : Event) :
      Reachable imageNumbers numImages st →
      Reachable imageNumbers numImages (step imageNumbers st e)

/-- One RGB pixel of a test image (numpy uint8 values, channels in RGB order
after the BGR→RGB conversion of `_load_single_image`, src/main.py line 350). -/
structure Pixel where
  r : ℕ
  g : ℕ
  b : ℕ
deriving DecidableEq, Repr

/-- The per-value effect of
`np.clip(v * (intensity / 255.0), 0, 255)` followed by the assignment back
into a uint8 array (a C cast truncating toward zero, which on the clipped
non-negative value is the floor): src/main.py lines 543-549. -/
def clipScale (v : ℕ) (intensity : ℚ) : ℕ :=
  (Int.toNat ⌊min 255 (max 0 ((v : ℚ) * (intensity / 255)))⌋)

/-- Translation of `adjust_image_intensity` (src/main.py lines 529-549): copy the image and
rescale exactly the selected color component, pixel by pixel.  The image is
modelled as its flat list of pixels (the 2-D shape plays no role). -/
def adjust_image_intensity (color_component : String) (image : List Pixel)
    (intensity : ℚ) : List Pixel :=
  if color_component = "R" then
    image.map fun p => { p with r := clipScale p.r intensity }
  else if color_component = "G" then
    image.map fun p => { p with g := clipScale p.g intensity }
  else if color_component = "B" then
    image.map fun p => { p with b := clipScale p.b intensity }
  else image

/-- The `IMAGE_NUMBERS` mapping of the concrete pause/resume scenario:
one stimulus whose hidden number is "7". -/
def pauseScenarioEnv : List (String × String) := [("it-1.png", "7")]

/-- The concrete pause/resume run used to examine the elapsed-time
accounting: a one-stimulus session is started at t=0 (default step 3), a
tick fires at t=1, the session is paused at t=1 and resumed at t=20, so 19
of the first 21 seconds are spent paused. -/
def pauseScenarioState : TestState :=
  step pauseScenarioEnv
    (step pauseScenarioEnv
      (step pauseScenarioEnv
        (step pauseScenarioEnv (initState 1) (.clickStart "" none 0))
        (.timerFire 1))
      .clickStop)
    .clickStop

/-- Projection helper: `next_test` never modifies the result log. -/
theorem next_test_results (s : TestState) (now : ℚ) :
    (next_test s now).results = s.results := by
  unfold next_test load_next_test finish_test
  split <;> rfl

/-- Projection helper: `next_test` always advances the trial index by one. -/
theorem next_test_current (s : TestState) (now : ℚ) :
    (next_test s now).current_test = s.current_test + 1 := by
  unfold next_test load_next_test finish_test
  split <;> rfl

/-- The step chosen by `start_test` is always positive. -/
theorem chooseStep_pos (stripped : String) (parsed : Option ℚ) :
    0 < (chooseStep stripped parsed).1 := by
  unfold chooseStep DEFAULT_INTENSITY_STEP
  split
  · cases parsed with
    | none => norm_num
    | some v =>
      simp only
      split
      · simp_all
      · norm_num
  · norm_num

/-- The step chosen by `start_test` is always at most 10. -/
theorem chooseStep_le (stripped : String) (parsed : Option ℚ) :
    (chooseStep stripped parsed).1 ≤ 10 := by
  unfold chooseStep DEFAULT_INTENSITY_STEP
  split
  · cases parsed with
    | none => norm_num
    | some v =>
      simp only
      split
      · simp_all
      · norm_num
  · norm_num

/-- The session invariant maintained by every event of the Qt loop.  It ties
the result-log length to the trial index in every phase (running, paused,
finished), keeps the ramp inside its bounds, records which widget states are
possible in which phase, and pins the color channel to the R,G,B cycle. -/
structure Inv (st : TestState) : Prop where
  step_pos : 0 < st.intensity_step
  step_le : st.intensity_step ≤ 10
  ci_nonneg : 0 ≤ st.current_intensity
  ci_le : st.current_intensity ≤ 255
  run_len : st.test_running = true → st.results.length = st.current_test
  run_lt : st.test_running = true → st.current_test < st.max_tests
  run_color : st.test_running = true →
    st.color_component = COLOR_COMPONENTS.getD (st.current_test % 3) "R"
  timer_run : st.timer_on = true → st.test_running = true
  pause_len : st.stop_button_enabled = true → st.test_running = false →
    st.results.length = st.current_test
  pause_lt : st.stop_button_enabled = true → st.test_running = false →
    st.current_test < st.max_tests
  pause_color : st.stop_button_enabled = true → st.test_running = false →
    st.color_component = COLOR_COMPONENTS.getD (st.current_test % 3) "R"
  fin_len : st.finished = true → st.results.length = st.max_tests
  fin_not_run : st.finished = true → st.test_running = false
  fin_stop : st.finished = true → st.stop_button_enabled = false
  rebind_not_run : st.start_button_restart = true → st.test_running = false
  rebind_no_timer : st.start_button_restart = true → st.timer_on = false
  rebind_no_stop : st.start_button_restart = true → st.stop_button_enabled = false

/-- While a test is running the session is not in the finished phase. -/
theorem Inv.fin_false {st : TestState} (h : Inv st)
    (hrun : st.test_running = true) : st.finished = false := by
  cases hf : st.finished with
  | false => rfl
  | true => simp [h.fin_not_run hf] at hrun

/-- While a test is running the start button is bound to `start_test`. -/
theorem Inv.rebind_false {st : TestState} (h : Inv st)
    (hrun : st.test_running = true) : st.start_button_restart = false := by
  cases hf : st.start_button_restart with
  | false => rfl
  | true => simp [h.rebind_not_run hf] at hrun

/-- Core preservation step: a completed trial (one record appended, timer
stopped, intensity possibly updated inside its bounds) followed by
`next_test` re-establishes the invariant, finishing the session when the
trial was the last one. -/
theorem inv_advance (s : TestState) (now : ℚ)
    (h1 : 0 < s.intensity_step) (h2 : s.intensity_step ≤ 10)
    (h3 : 0 ≤ s.current_intensity) (h4 : s.current_intensity ≤ 255)
    (hrun : s.test_running = true)
    (hlen : s.results.length = s.current_test + 1)
    (hlt : s.current_test < s.max_tests)
    (hfin : s.finished = false)
    (hbind : s.start_button_restart = false) :
    Inv (next_test s now) := by
  unfold next_test load_next_test finish_test
  split
  · constructor <;> intros <;> simp_all <;> omega
  · constructor <;> intros <;> simp_all

/-- The timer handler preserves the invariant. -/
theorem Inv.update {st : TestState} (h : Inv st)
    (hrun : st.test_running = true) (now : ℚ) :
    Inv (update_color_intensity st now) := by
  unfold update_color_intensity
  split
  · exact inv_advance _ now h.step_pos h.step_le
      (le_min (by norm_num) (add_nonneg h.ci_nonneg h.step_pos.le))
      (min_le_left _ _) hrun
      (by simp [tick_intensity, h.run_len hrun]) (h.run_lt hrun)
      (h.fin_false hrun) (h.rebind_false hrun)
  · unfold tick_intensity
    obtain ⟨h1, h2, h3, h4, h5, h6, h7, h8, h9, h10, h11, h12, h13, h14,
      h15, h16, h17⟩ := h
    refine ⟨h1, h2, le_min (by norm_num) (add_nonneg h3 h1.le),
      min_le_left _ _, ?_, ?_, ?_, ?_, ?_, ?_, ?_, ?_, ?_, ?_, ?_, ?_, ?_⟩ <;>
      intros <;> simp_all

/-- The answer-field handler preserves the invariant. -/
theorem Inv.handle_number {st : TestState} (h : Inv st)
    (imageNumbers : List (String × String)) (text : String) (now : ℚ) :
    Inv (handle_number_input imageNumbers st text now) := by
  unfold handle_number_input
  split
  · exact h
  · rename_i hnr
    rw [Bool.not_eq_false] at hnr
    split
    · exact h
    · refine inv_advance _ now ?_ ?_ ?_ ?_ ?_ ?_ ?_ ?_ ?_ <;> simp
      · exact h.step_pos
      · exact h.step_le
      · exact h.ci_nonneg
      · exact h.ci_le
      · exact hnr
      · exact h.run_len hnr
      · exact h.run_lt hnr
      · exact h.fin_false hnr
      · exact h.rebind_false hnr

/-- The key-press handler preserves the invariant. -/
theorem Inv.keyPress {st : TestState} (h : Inv st) (key : Nat) (now : ℚ) :
    Inv (keyPressEvent st key now) := by
  unfold keyPressEvent
  split
  · exact h
  · rename_i hnr
    rw [Bool.not_eq_false] at hnr
    split
    · refine inv_advance _ now ?_ ?_ ?_ ?_ ?_ ?_ ?_ ?_ ?_ <;> simp
      · exact h.step_pos
      · exact h.step_le
      · exact h.ci_nonneg
      · exact h.ci_le
      · exact hnr
      · exact h.run_len hnr
      · exact h.run_lt hnr
      · exact h.fin_false hnr
      · exact h.rebind_false hnr
    · exact h

/-- The stop/resume button handler preserves the invariant (it is only
reachable while the stop button is enabled). -/
theorem Inv.stop_resume {st : TestState} (h : Inv st)
    (hstop : st.stop_button_enabled = true) :
    Inv (handle_stop_resume st) := by
  obtain ⟨h1, h2, h3, h4, h5, h6, h7, h8, h9, h10, h11, h12, h13, h14,
    h15, h16, h17⟩ := h
  unfold handle_stop_resume stop_test
  split <;> constructor <;> intros <;> simp_all

/-- Function `start_test` preserves the invariant (only dispatched while the start
button is bound to it). -/
theorem Inv.start {st : TestState} (h : Inv st)
    (hbind : st.start_button_restart = false)
    (stripped : String) (parsed : Option ℚ) (now : ℚ) :
    Inv (start_test st stripped parsed now) := by
  obtain ⟨h1, h2, h3, h4, h5, h6, h7, h8, h9, h10, h11, h12, h13, h14,
    h15, h16, h17⟩ := h
  unfold start_test
  split
  · exact ⟨h1, h2, h3, h4, h5, h6, h7, h8, h9, h10, h11, h12, h13, h14,
      h15, h16, h17⟩
  · rename_i hmax
    unfold load_next_test finish_test
    split
    · rename_i hle
      simp only at hle
      omega
    · constructor <;> intros <;>
        simp_all [chooseStep_pos, chooseStep_le, COLOR_COMPONENTS] <;> omega

/-- Function `restart_test` preserves the invariant (only dispatched while the start
button is bound to it, which implies the session is idle). -/
theorem Inv.restart {st : TestState} (h : Inv st)
    (hbind : st.start_button_restart = true) :
    Inv (restart_test st) := by
  obtain ⟨h1, h2, h3, h4, h5, h6, h7, h8, h9, h10, h11, h12, h13, h14,
    h15, h16, h17⟩ := h
  unfold restart_test
  constructor <;> intros <;> simp_all

/-- The mode radios preserve the invariant. -/
theorem Inv.mode {st : TestState} (h : Inv st) (b : Bool) :
    Inv { st with number_mode := b } := by
  obtain ⟨h1, h2, h3, h4, h5, h6, h7, h8, h9, h10, h11, h12, h13, h14,
    h15, h16, h17⟩ := h
  constructor <;> intros <;> simp_all

/-- Every event of the Qt loop preserves the invariant. -/
theorem inv_step {st : TestState} (h : Inv st)
    (imageNumbers : List (String × String)) (e : Event) :
    Inv (step imageNumbers st e) := by
  cases e with
  | timerFire now =>
    simp only [step]
    split
    · exact h.update (h.timer_run (by assumption)) now
    · exact h
  | pressEnter text now =>
    simp only [step]
    split
    · exact h.handle_number imageNumbers text now
    · exact h
  | pressKey key now => exact h.keyPress key now
  | clickStart stripped parsed now =>
    simp only [step]
    split
    · split
      · exact h.restart (by assumption)
      · rename_i hb
        rw [Bool.not_eq_true] at hb
        exact h.start hb stripped parsed now
    · exact h
  | clickStop =>
    simp only [step]
    split
    · exact h.stop_resume (by assumption)
    · exact h
  | setMode b =>
    simp only [step]
    split
    · exact h.mode b
    · exact h

/-- The initial state satisfies the invariant. -/
theorem inv_init (numImages : ℕ) : Inv (initState numImages) := by
  constructor <;> intros <;>
    simp_all [initState, DEFAULT_INTENSITY_STEP] <;> norm_num

/-- Every reachable state satisfies the invariant. -/
theorem reachable_inv {imageNumbers : List (String × String)} {numImages : ℕ}
    {st : TestState} (h : Reachable imageNumbers numImages st) : Inv st := by
  induction h with
  | init => exact inv_init numImages
  | next st e _ ih => exact inv_step ih imageNumbers e

/-- Claim C1: every trial — whether ended by a response or by timeout —
appends exactly one TrialRecord to the result log (while a test is running,
and likewise while it is paused-resumable, the log holds exactly one record
per completed trial, and any event that advances the trial counter appends
exactly one record), and when the session reaches `SessionFinished` the log
length equals the number of loaded stimuli (`max_tests`). -/
theorem trial_log_length_invariant (imageNumbers : List (String × String))
    (numImages : ℕ) (st : TestState)
    (h : Reachable imageNumbers numImages st) :
    (st.test_running = true → st.results.length = st.current_test)
    ∧ (st.finished = true → st.results.length = st.max_tests)
    ∧ ∀ e : Event,
        (step imageNumbers st e).current_test = st.current_test + 1 →
        (step imageNumbers st e).results.length = st.results.length + 1 := by
  have hinv := reachable_inv h
  refine ⟨hinv.run_len, hinv.fin_len, ?_⟩
  intro e
  cases e with
  | timerFire now =>
    simp only [step]
    split
    · unfold update_color_intensity
      split
      · intro _
        rw [next_test_results]
        simp [tick_intensity]
      · intro habs
        simp [tick_intensity] at habs
    · intro habs
      omega
  | pressEnter text now =>
    simp only [step]
    split
    · unfold handle_number_input
      split
      · intro habs
        omega
      · split
        · intro habs
          omega
        · intro _
          rw [next_test_results]
          simp
    · intro habs
      omega
  | pressKey key now =>
    simp only [step]
    unfold keyPressEvent
    split
    · intro habs
      omega
    · split
      · intro _
        rw [next_test_results]
        simp
      · intro habs
        omega
  | clickStart stripped parsed now =>
    simp only [step]
    split
    · split
      · intro habs
        simp [restart_test] at habs
      · unfold start_test
        split
        · intro habs
          omega
        · unfold load_next_test finish_test
          split
          · intro habs
            simp at habs
          · intro habs
            simp at habs
    · intro habs
      omega
  | clickStop =>
    simp only [step]
    split
    · unfold handle_stop_resume stop_test
      split
      · intro habs
        simp at habs
      · intro habs
        simp at habs
    · intro habs
      omega
  | setMode b =>
    simp only [step]
    split
    · intro habs
      simp at habs
    · intro habs
      omega

/-- Witness for C1: a one-stimulus session that times out reaches
`SessionFinished` with exactly one record in the log. -/
theorem trial_log_length_invariant_witness :
    (step [("it-1.png", "7")]
        (step [("it-1.png", "7")] (initState 1) (.clickStart "" none 0))
        (.timerFire 20)).results.length =
      (step [("it-1.png", "7")]
        (step [("it-1.png", "7")] (initState 1) (.clickStart "" none 0))
        (.timerFire 20)).max_tests :=
  (trial_log_length_invariant [("it-1.png", "7")] 1 _
    (Reachable.next _ (.timerFire 20)
      (Reachable.next _ (.clickStart "" none 0) Reachable.init))).2.1
    (by simp [step, initState, start_test, load_next_test, finish_test,
          chooseStep, next_test, update_color_intensity, tick_intensity,
          MAX_TEST_TIME, show (15:ℚ) < 20 by norm_num])

/-- Claim C2: a tick sets `current_intensity` to
`min 255 (current_intensity + intensity_step)` as a pure function of the
state and the configured step, and in every reachable state the intensity is
non-decreasing under a tick and lies in `[0, 255]` before and after it. -/
theorem intensity_tick_monotone_bounded
    (imageNumbers : List (String × String)) (numImages : ℕ) (st : TestState)
    (h : Reachable imageNumbers numImages st) :
    (tick_intensity st).current_intensity =
      min 255 (st.current_intensity + st.intensity_step)
    ∧ st.current_intensity ≤ (tick_intensity st).current_intensity
    ∧ 0 ≤ st.current_intensity ∧ st.current_intensity ≤ 255
    ∧ 0 ≤ (tick_intensity st).current_intensity
    ∧ (tick_intensity st).current_intensity ≤ 255 := by
  have hinv := reachable_inv h
  refine ⟨rfl, ?_, hinv.ci_nonneg, hinv.ci_le, ?_, ?_⟩
  · exact le_min hinv.ci_le (le_add_of_nonneg_right hinv.step_pos.le)
  · exact le_min (by norm_num) (add_nonneg hinv.ci_nonneg hinv.step_pos.le)
  · exact min_le_left _ _

/-- Witness for C2: the tick equation and bounds hold at the initial state
of a one-stimulus session (intensity 0, default step 3). -/
theorem intensity_tick_monotone_bounded_witness :
    (tick_intensity (initState 1)).current_intensity =
      min 255 ((initState 1).current_intensity + (initState 1).intensity_step)
    ∧ (initState 1).current_intensity ≤
        (tick_intensity (initState 1)).current_intensity
    ∧ 0 ≤ (initState 1).current_intensity
    ∧ (initState 1).current_intensity ≤ 255
    ∧ 0 ≤ (tick_intensity (initState 1)).current_intensity
    ∧ (tick_intensity (initState 1)).current_intensity ≤ 255 :=
  intensity_tick_monotone_bounded [] 1 (initState 1) Reachable.init

/-- Claim C7: in every reachable state in which a trial is running, the
trial's color channel is the `current_test mod 3` element of the cyclic
sequence R, G, B. -/
theorem color_channel_cycles (imageNumbers : List (String × String))
    (numImages : ℕ) (st : TestState)
    (h : Reachable imageNumbers numImages st)
    (hrun : st.test_running = true) :
    st.color_component = COLOR_COMPONENTS.getD (st.current_test % 3) "R" :=
  (reachable_inv h).run_color hrun

/-- Witness for C7: trial 0 of a freshly started session runs on channel R. -/
theorem color_channel_cycles_witness :
    (step [("it-1.png", "7")] (initState 1)
        (.clickStart "" none 0)).color_component =
      COLOR_COMPONENTS.getD
        ((step [("it-1.png", "7")] (initState 1)
          (.clickStart "" none 0)).current_test % 3) "R" :=
  color_channel_cycles [("it-1.png", "7")] 1 _
    (Reachable.next _ (.clickStart "" none 0) Reachable.init)
    (by simp [step, initState, start_test, load_next_test, finish_test,
          chooseStep])

/-- Claim C5: when the timer is armed and the elapsed time since trial start
exceeds `MAX_TEST_TIME`, the tick appends exactly the timeout record
(reaction_time = `MAX_TEST_TIME`, the just-ramped intensity, empty input,
incorrect) and advances the sequencer — to the next trial when one remains,
to `SessionFinished` when the timed-out trial was the last. -/
theorem timeout_record_spec (imageNumbers : List (String × String))
    (st : TestState) (now : ℚ)
    (htimer : st.timer_on = true)
    (helapsed : MAX_TEST_TIME < now - st.start_time) :
    (step imageNumbers st (.timerFire now)).results =
      st.results ++
        [{ test_number := st.current_test + 1
           reaction_time := MAX_TEST_TIME
           intensity := min 255 (st.current_intensity + st.intensity_step)
           color_component := st.color_component
           user_input := ""
           correct := false }]
    ∧ (step imageNumbers st (.timerFire now)).current_test =
        st.current_test + 1
    ∧ (st.max_tests ≤ st.current_test + 1 →
        (step imageNumbers st (.timerFire now)).finished = true
        ∧ (step imageNumbers st (.timerFire now)).test_running = false
        ∧ (step imageNumbers st (.timerFire now)).timer_on = false)
    ∧ (st.current_test + 1 < st.max_tests →
        (step imageNumbers st (.timerFire now)).timer_on = true
        ∧ (step imageNumbers st (.timerFire now)).test_running =
            st.test_running) := by
  have hc : MAX_TEST_TIME < now - (tick_intensity st).start_time := helapsed
  have hs : step imageNumbers st (.timerFire now) =
      update_color_intensity st now := by
    simp [step, htimer]
  rw [hs, update_color_intensity, if_pos hc]
  refine ⟨?_, ?_, ?_, ?_⟩
  · rw [next_test_results]
    simp [tick_intensity]
  · rw [next_test_current]
    simp [tick_intensity]
  · intro hle
    unfold next_test load_next_test finish_test
    split
    · exact ⟨rfl, rfl, rfl⟩
    · rename_i hgt
      exfalso
      simp [tick_intensity] at hgt
      omega
  · intro hlt
    unfold next_test load_next_test finish_test
    split
    · rename_i hge
      exfalso
      simp [tick_intensity] at hge
      omega
    · exact ⟨rfl, rfl⟩

/-- Witness for C5: a one-stimulus session started at t=0 times out at the
t=20 tick and produces exactly the timeout record, finishing the session. -/
theorem timeout_record_spec_witness :
    (step [("it-1.png", "7")]
        (step [("it-1.png", "7")] (initState 1) (.clickStart "" none 0))
        (.timerFire 20)).results =
      (step [("it-1.png", "7")] (initState 1)
        (.clickStart "" none 0)).results ++
        [{ test_number :=
             (step [("it-1.png", "7")] (initState 1)
               (.clickStart "" none 0)).current_test + 1
           reaction_time := MAX_TEST_TIME
           intensity :=
             min 255
               ((step [("it-1.png", "7")] (initState 1)
                 (.clickStart "" none 0)).current_intensity +
                (step [("it-1.png", "7")] (initState 1)
                  (.clickStart "" none 0)).intensity_step)
           color_component :=
             (step [("it-1.png", "7")] (initState 1)
               (.clickStart "" none 0)).color_component
           user_input := ""
           correct := false }]
    ∧ (step [("it-1.png", "7")]
        (step [("it-1.png", "7")] (initState 1) (.clickStart "" none 0))
        (.timerFire 20)).current_test =
      (step [("it-1.png", "7")] (initState 1)
        (.clickStart "" none 0)).current_test + 1 :=
  ⟨(timeout_record_spec [("it-1.png", "7")] _ 20
      (by simp [step, initState, start_test, load_next_test, finish_test,
        chooseStep])
      (by simp [step, initState, start_test, load_next_test, finish_test,
            chooseStep, MAX_TEST_TIME]
          norm_num)).1,
   (timeout_record_spec [("it-1.png", "7")] _ 20
      (by simp [step, initState, start_test, load_next_test, finish_test,
        chooseStep])
      (by simp [step, initState, start_test, load_next_test, finish_test,
            chooseStep, MAX_TEST_TIME]
          norm_num)).2.1⟩

/-- Claim C9: pausing a running trial (the stop/resume handler while
`test_running`) stops the tick schedule and leaves the ramp state unchanged —
intensity, trial index, color channel and the result log are preserved — and
no tick fires while paused. -/
theorem pause_preserves_state (imageNumbers : List (String × String))
    (st : TestState) (hrun : st.test_running = true) :
    (handle_stop_resume st).current_intensity = st.current_intensity
    ∧ (handle_stop_resume st).current_test = st.current_test
    ∧ (handle_stop_resume st).color_component = st.color_component
    ∧ (handle_stop_resume st).results = st.results
    ∧ (handle_stop_resume st).timer_on = false
    ∧ ∀ now : ℚ,
        step imageNumbers (handle_stop_resume st) (.timerFire now) =
          handle_stop_resume st := by
  have hs : handle_stop_resume st = stop_test st := by
    simp [handle_stop_resume, hrun]
  rw [hs]
  refine ⟨rfl, rfl, rfl, rfl, rfl, ?_⟩
  intro now
  simp [step, stop_test]

/-- Witness for C9: pausing the freshly started one-stimulus session
preserves its ramp state and silences the timer. -/
theorem pause_preserves_state_witness :
    (handle_stop_resume
        (step [("it-1.png", "7")] (initState 1)
          (.clickStart "" none 0))).results =
      (step [("it-1.png", "7")] (initState 1) (.clickStart "" none 0)).results
    ∧ (handle_stop_resume
        (step [("it-1.png", "7")] (initState 1)
          (.clickStart "" none 0))).timer_on = false :=
  ⟨(pause_preserves_state [("it-1.png", "7")] _
      (by simp [step, initState, start_test, load_next_test, finish_test,
        chooseStep])).2.2.2.1,
   (pause_preserves_state [("it-1.png", "7")] _
      (by simp [step, initState, start_test, load_next_test, finish_test,
        chooseStep])).2.2.2.2.1⟩

/-- Claim C10: submitting an empty or whitespace-only answer, or submitting
while no test is running, is a complete no-op of the answer handler: the
state (result log, trial index, ramp, timer) is unchanged. -/
theorem blank_submission_noop (imageNumbers : List (String × String))
    (st : TestState) (text : String) (now : ℚ)
    (h : pyStrip text = "" ∨ st.test_running = false) :
    handle_number_input imageNumbers st text now = st := by
  rcases h with h | h <;> simp [handle_number_input, h]

/-- Witness for C10: a whitespace-only submission leaves the state exactly
as it was. -/
theorem blank_submission_noop_witness :
    handle_number_input [] (initState 1) "   " 0 = initState 1 :=
  blank_submission_noop [] (initState 1) "   " 0 (Or.inl (by decide))

/-- Counterexample for C4 as stated: the answer handler strips surrounding
whitespace before recording and scoring.  In number mode with ground truth
"8", submitting the non-empty answer " 8 " produces a record whose
`user_input` is "8" — not the submitted string verbatim — and whose
`correct` is `true` even though the submitted string " 8 " differs from the
ground truth "8". -/
theorem numeric_answer_verbatim_counterexample :
    ((" 8 " : String) ≠ "8")
    ∧ (step [("it-1.png", "8")] (initState 1)
        (.clickStart "" none 0)).number_mode = true
    ∧ (step [("it-1.png", "8")] (initState 1)
        (.clickStart "" none 0)).test_running = true
    ∧ (handle_number_input [("it-1.png", "8")]
        (step [("it-1.png", "8")] (initState 1) (.clickStart "" none 0))
        " 8 " 1).results =
      [{ test_number := 1
         reaction_time := 1
         intensity := 0
         color_component := "R"
         user_input := "8"
         correct := true }] := by
  refine ⟨by decide, ?_, ?_, ?_⟩
  · simp [step, initState, start_test, load_next_test, finish_test, chooseStep]
  · simp [step, initState, start_test, load_next_test, finish_test, chooseStep]
  · simp [handle_number_input, step, initState, start_test, load_next_test,
      finish_test, chooseStep, next_test, next_test_results, COLOR_COMPONENTS,
      show pyStrip " 8 " = "8" by decide,
      show imageName 0 = "it-1.png" by decide]

/-- Claim C4, amended: in number mode, a submission whose stripped text is
non-empty appends exactly one record whose `user_input` is the stripped
submission and whose `correct` flag is true exactly when the stripped
submission equals the ground-truth number of the current stimulus
(`IMAGE_NUMBERS.get(f'it-N.png', '')`). -/
theorem numeric_answer_scoring (imageNumbers : List (String × String))
    (st : TestState) (text : String) (now : ℚ)
    (hrun : st.test_running = true) (hne : pyStrip text ≠ "") :
    (handle_number_input imageNumbers st text now).results.length =
      st.results.length + 1
    ∧ (handle_number_input imageNumbers st text now).results.getLast? =
        some { test_number := st.current_test + 1
               reaction_time := now - st.start_time
               intensity := st.current_intensity
               color_component := st.color_component
               user_input := pyStrip text
               correct := pyStrip text ==
                 (imageNumbers.lookup (imageName st.current_test)).getD "" }
    ∧ ∀ rec : TrialRecord,
        (handle_number_input imageNumbers st text now).results.getLast? =
          some rec →
        rec.user_input = pyStrip text
        ∧ (rec.correct = true ↔
            pyStrip text =
              (imageNumbers.lookup (imageName st.current_test)).getD "") := by
  have hnr : ¬(st.test_running = false) := by simp [hrun]
  unfold handle_number_input
  rw [if_neg hnr, if_neg hne, next_test_results]
  refine ⟨by simp, by simp, ?_⟩
  intro rec hrec
  simp at hrec
  cases hrec
  exact ⟨rfl, by simp⟩

/-- Witness for the amended C4: in the started one-stimulus session with
ground truth "8", submitting "8" at t=1 appends one record scored correct. -/
theorem numeric_answer_scoring_witness :
    (handle_number_input [("it-1.png", "8")]
        (step [("it-1.png", "8")] (initState 1) (.clickStart "" none 0))
        "8" 1).results.length =
      (step [("it-1.png", "8")] (initState 1)
        (.clickStart "" none 0)).results.length + 1 :=
  (numeric_answer_scoring [("it-1.png", "8")] _ "8" 1
    (by simp [step, initState, start_test, load_next_test, finish_test,
      chooseStep])
    (by decide)).1

/-- Counterexample for C8 as stated: an empty intensity-step input does NOT
produce a warning — `start_test` silently substitutes the default step 3
(the warning dialog is shown only for non-numeric or out-of-range input)
and the session still starts. -/
theorem empty_step_silent_counterexample :
    chooseStep "" none = (DEFAULT_INTENSITY_STEP, false)
    ∧ (start_test (initState 1) "" none 0).test_running = true := by
  constructor
  · rfl
  · simp [start_test, initState, load_next_test, finish_test]

/-- Claim C8, amended: a numeric step in (0, 10] is used as entered with no
warning; a non-numeric or out-of-range value is replaced by the default 3
with a warning; an EMPTY input is replaced by the default 3 silently
(without a warning); in every case the chosen step lies in (0, 10] and the
session still starts (whenever stimuli are loaded). -/
theorem intensity_step_validation (stripped : String) (parsed : Option ℚ)
    (st : TestState) (now : ℚ) :
    (stripped = "" →
      chooseStep stripped parsed = (DEFAULT_INTENSITY_STEP, false))
    ∧ (∀ v : ℚ, stripped ≠ "" → parsed = some v → 0 < v → v ≤ 10 →
        chooseStep stripped parsed = (v, false))
    ∧ (∀ v : ℚ, stripped ≠ "" → parsed = some v → ¬(0 < v ∧ v ≤ 10) →
        chooseStep stripped parsed = (DEFAULT_INTENSITY_STEP, true))
    ∧ (stripped ≠ "" → parsed = none →
        chooseStep stripped parsed = (DEFAULT_INTENSITY_STEP, true))
    ∧ (st.max_tests ≠ 0 →
        (start_test st stripped parsed now).test_running = true
        ∧ (start_test st stripped parsed now).intensity_step =
            (chooseStep stripped parsed).1)
    ∧ 0 < (chooseStep stripped parsed).1
    ∧ (chooseStep stripped parsed).1 ≤ 10 := by
  refine ⟨?_, ?_, ?_, ?_, ?_, chooseStep_pos stripped parsed,
    chooseStep_le stripped parsed⟩
  · intro he
    simp [chooseStep, he]
  · intro v hne hp h0 h10
    simp [chooseStep, hne, hp, h0, h10]
  · intro v hne hp hbad
    simp [chooseStep, hne, hp, hbad]
  · intro hne hp
    simp [chooseStep, hne, hp]
  · intro hmax
    unfold start_test
    rw [if_neg hmax]
    unfold load_next_test finish_test
    split
    · rename_i hle
      simp only at hle
      omega
    · exact ⟨rfl, rfl⟩

/-- Witness for the amended C8: the in-range input 5 is used as the step
with no warning, and a one-stimulus session starts with it. -/
theorem intensity_step_validation_witness :
    chooseStep "5" (some 5) = (5, false)
    ∧ (start_test (initState 1) "5" (some 5) 0).test_running = true :=
  ⟨(intensity_step_validation "5" (some 5) (initState 1) 0).2.1 5
      (by decide) rfl (by norm_num) (by norm_num),
    ((intensity_step_validation "5" (some 5) (initState 1) 0).2.2.2.2.1
      (by decide)).1⟩

/-- Claim C3: for any stimulus image and any intensity in [0, 255],
rendering leaves every pixel's two unselected channels untouched and
replaces the selected channel value v by exactly the integer floor of
v·(intensity/255) — the clamp to [0, 255] is exact: on uint8 inputs the
scaled value never leaves the range (it is bounded by v), so no information
is lost beyond the integer truncation. -/
theorem adjust_image_intensity_spec (image : List Pixel) (intensity : ℚ)
    (h0 : 0 ≤ intensity) (h255 : intensity ≤ 255) :
    (∀ j : ℕ, ∀ p : Pixel, image[j]? = some p →
      (adjust_image_intensity "R" image intensity)[j]? =
        some { p with r := clipScale p.r intensity }
      ∧ (adjust_image_intensity "G" image intensity)[j]? =
        some { p with g := clipScale p.g intensity }
      ∧ (adjust_image_intensity "B" image intensity)[j]? =
        some { p with b := clipScale p.b intensity })
    ∧ (∀ v : ℕ, v ≤ 255 →
        (clipScale v intensity : ℤ) = ⌊(v : ℚ) * (intensity / 255)⌋
        ∧ clipScale v intensity ≤ v) := by
  constructor
  · intro j p hp
    refine ⟨?_, ?_, ?_⟩ <;>
      simp [adjust_image_intensity, List.getElem?_map, hp]
  · intro v hv
    have hx0 : 0 ≤ (v : ℚ) * (intensity / 255) :=
      mul_nonneg (Nat.cast_nonneg v) (div_nonneg h0 (by norm_num))
    have hxv : (v : ℚ) * (intensity / 255) ≤ (v : ℚ) := by
      calc (v : ℚ) * (intensity / 255) ≤ (v : ℚ) * 1 :=
            mul_le_mul_of_nonneg_left
              ((div_le_one (by norm_num)).2 h255) (Nat.cast_nonneg v)
        _ = (v : ℚ) := mul_one _
    have hx255 : (v : ℚ) * (intensity / 255) ≤ 255 :=
      hxv.trans (by exact_mod_cast hv)
    have hcollapse : min 255 (max 0 ((v : ℚ) * (intensity / 255))) =
        (v : ℚ) * (intensity / 255) := by
      rw [max_eq_right hx0, min_eq_right hx255]
    constructor
    · unfold clipScale
      rw [hcollapse, Int.toNat_of_nonneg (Int.floor_nonneg.2 hx0)]
    · unfold clipScale
      rw [hcollapse]
      have hfl : ⌊(v : ℚ) * (intensity / 255)⌋ ≤ (v : ℤ) := by
        have := Int.floor_mono hxv
        rwa [Int.floor_natCast] at this
      exact Int.toNat_le.2 hfl

/-- Witness for C3: on a single pixel (255, 10, 20) at intensity 128, the R
channel becomes exactly ⌊255·128/255⌋ = 128 and G, B are untouched. -/
theorem adjust_image_intensity_spec_witness :
    (adjust_image_intensity "R" [{ r := 255, g := 10, b := 20 }] 128)[0]? =
      some { r := clipScale 255 128, g := 10, b := 20 }
    ∧ (clipScale 255 128 : ℤ) = ⌊(255 : ℚ) * (128 / 255)⌋
    ∧ clipScale 255 128 ≤ 255 :=
  ⟨((adjust_image_intensity_spec [{ r := 255, g := 10, b := 20 }] 128
      (by norm_num) (by norm_num)).1 0 { r := 255, g := 10, b := 20 } rfl).1,
   ((adjust_image_intensity_spec [{ r := 255, g := 10, b := 20 }] 128
      (by norm_num) (by norm_num)).2 255 (le_refl 255)).1,
   ((adjust_image_intensity_spec [{ r := 255, g := 10, b := 20 }] 128
      (by norm_num) (by norm_num)).2 255 (le_refl 255)).2⟩

/-- C6 (code bug in the source): pause/resume does not adjust the trial's
elapsed-time accounting.  In the concrete run `pauseScenarioState` the
session is started at t=0, ticks at t=1, is paused at t=1 and resumed at
t=20; `start_time` is still the original 0 after the resume, so the first
tick after resume (t=21) computes an elapsed time of 21 s — although the
trial ran unpaused for only 2 s — and records a timeout with
reaction_time = 15, finishing the session.  Under the claimed semantics
(paused time excluded) the elapsed time would be 2 s and no timeout record
could exist. -/
theorem pause_time_counts_toward_timeout :
    pauseScenarioState.start_time = 0
    ∧ pauseScenarioState.test_running = true
    ∧ pauseScenarioState.timer_on = true
    ∧ (step pauseScenarioEnv pauseScenarioState (.timerFire 21)).results =
        [{ test_number := 1
           reaction_time := MAX_TEST_TIME
           intensity := 6
           color_component := "R"
           user_input := ""
           correct := false }]
    ∧ (step pauseScenarioEnv pauseScenarioState (.timerFire 21)).finished =
        true := by
  have h1 : ¬((15 : ℚ) < 1) := by norm_num
  have h2 : (15 : ℚ) < 21 := by norm_num
  have h3 : min (255 : ℚ) 3 = 3 := min_eq_right (by norm_num)
  have h4 : min (255 : ℚ) (3 + 3) = 6 := by
    rw [show (3 : ℚ) + 3 = 6 by norm_num]
    exact min_eq_right (by norm_num)
  refine ⟨?_, ?_, ?_, ?_, ?_⟩ <;>
    simp [pauseScenarioState, pauseScenarioEnv, step, initState, start_test,
      load_next_test, finish_test, chooseStep, update_color_intensity,
      tick_intensity, next_test, handle_stop_resume, stop_test,
      MAX_TEST_TIME, COLOR_COMPONENTS, DEFAULT_INTENSITY_STEP, h1, h2, h3, h4]

end Ishihara
